import Mathlib

/-!
Verification of the Ontime polling/normalization/dispatch core.

The Python source (custom_components/ontime/__init__.py and sensor.py) is
shallowly embedded below: JSON documents become the inductive type
Ontime.Json, Python dictionary/truthiness/comparison semantics become
explicit helper functions (a raised exception is modelled as the error
branch of Except), and the coordinator's update pipeline becomes the pure
function Ontime.fetchData.
-/

namespace Ontime

/-- A JSON value, as returned by aiohttp's response.json(). Objects keep
their key order; the server never emits duplicate keys. -/
inductive Json where
  | null : Json
  | bool : Bool → Json
  | int : Int → Json
  | str : String → Json
  | arr : List Json → Json
  | obj : List (String × Json) → Json

mutual

/-- Structural equality of JSON values. -/
def Json.beq : Json → Json → Bool
  | .null, .null => true
  | .bool a, .bool b => a == b
  | .int a, .int b => a == b
  | .str a, .str b => a == b
  | .arr xs, .arr ys => Json.beqList xs ys
  | .obj xs, .obj ys => Json.beqPairs xs ys
  | _, _ => false

/-- Structural equality of JSON arrays. -/
def Json.beqList : List Json → List Json → Bool
  | [], [] => true
  | x :: xs, y :: ys => Json.beq x y && Json.beqList xs ys
  | _, _ => false

/-- Structural equality of JSON object member lists. -/
def Json.beqPairs : List (String × Json) → List (String × Json) → Bool
  | [], [] => true
  | (k1, v1) :: xs, (k2, v2) :: ys => k1 == k2 && Json.beq v1 v2 && Json.beqPairs xs ys
  | _, _ => false

end

instance : BEq Json := ⟨Json.beq⟩

/-- First-match association-list lookup for object members. -/
def lookupList : List (String × Json) → String → Option Json
  | [], _ => none
  | (k', v) :: rest, k => if k' = k then some v else lookupList rest k

/-- Key lookup on a JSON value: a member for objects, none otherwise. -/
def Json.lookup : Json → String → Option Json
  | .obj kvs, k => lookupList kvs k
  | _, _ => none

/-- Python truthiness of a JSON value. -/
def Json.truthy : Json → Bool
  | .null => false
  | .bool b => b
  | .int n => decide (n ≠ 0)
  | .str s => decide (s ≠ "")
  | .arr xs => !xs.isEmpty
  | .obj kvs => !kvs.isEmpty

/-- Whether a JSON value is an object (a Python dict). -/
def Json.isObj : Json → Bool
  | .obj _ => true
  | _ => false

/-- Python k in x. Key test for dicts, membership for lists, substring
test for strings; TypeError (error) for other values. -/
def pyContains : Json → String → Except Unit Bool
  | .obj kvs, k => .ok (Json.lookup (.obj kvs) k).isSome
  | .arr xs, k => .ok (xs.contains (.str k))
  | .str s, k => .ok (if k = "" then true else decide (2 ≤ (s.splitOn k).length))
  | _, _ => .error ()

/-- Python x[k] with a string key: member access for dicts (KeyError when
absent), TypeError for every other value. -/
def pyIndex : Json → String → Except Unit Json
  | .obj kvs, k =>
    match Json.lookup (.obj kvs) k with
    | some v => .ok v
    | none => .error ()
  | _, _ => .error ()

/-- Python x.get(k): only dicts have a get method (AttributeError
otherwise); returns None (here: Option.none) for a missing key. -/
def pyDictGet : Json → String → Except Unit (Option Json)
  | .obj kvs, k => .ok (Json.lookup (.obj kvs) k)
  | _, _ => .error ()

/-- Python x.get(k, dflt). -/
def pyDictGetD (j : Json) (k : String) (dflt : Json) : Except Unit Json :=
  match pyDictGet j k with
  | .error e => .error e
  | .ok r => .ok (r.getD dflt)

/-- Python v < 0 for a JSON value: defined for numbers (a JSON bool is a
Python int, so it compares as 0 or 1), TypeError for anything else. -/
def pyLtZero : Json → Except Unit Bool
  | .int n => .ok (decide (n < 0))
  | .bool _ => .ok false
  | _ => .error ()

/-- Python abs(v) // 1000 for a JSON value; floor division of the
non-negative absolute value. -/
def pyAbsFloorDiv1000 : Json → Except Unit Nat
  | .int n => .ok (n.natAbs / 1000)
  | .bool b => .ok (if b then (1 : Nat) / 1000 else 0)
  | _ => .error ()

/-- Python == between JSON values. Numeric cross-type equality between a
bool and an int follows Python (True == 1); containers are compared
structurally, which coincides with Python on the canonical, duplicate-free
documents the server emits. -/
def pyEq (a b : Json) : Bool :=
  match a, b with
  | .bool x, .int n => decide ((if x then (1 : Int) else 0) = n)
  | .int n, .bool x => decide (n = (if x then (1 : Int) else 0))
  | _, _ => Json.beq a b

/-- Exception-propagating sequencing: Python statements after a possibly
raising expression run only when it did not raise. -/
def eBind {α β : Type} (x : Except Unit α) (f : α → Except Unit β) : Except Unit β :=
  match x with
  | .error e => .error e
  | .ok a => f a

theorem eBind_ok {α β : Type} {x : Except Unit α} {f : α → Except Unit β} {b : β} :
    eBind x f = .ok b ↔ ∃ a, x = .ok a ∧ f a = .ok b := by
  cases x <;> simp [eBind]

/-- An HTTP response as the coordinator sees it: the status code, and the
outcome of response.json() (error when the body fails to parse). -/
structure Response where
  status : Nat
  body : Except Unit Json

/-- The data dictionary assembled by
OntimeDataUpdateCoordinator._fetch_data. Each field is an optional entry
of the Python dict (none means the key is absent). -/
structure Data where
  runtime : Option Json := none
  timer : Option Json := none
  current_event : Option Json := none
  next_event : Option Json := none
  public_next_event : Option Json := none
  is_overtime : Option Bool := none
  overtime_seconds : Option Nat := none
  playback : Option Json := none
  rundown : Option Json := none

/-- The pattern "if k in runtime_data: use runtime_data[k]" from
_fetch_data: the extracted value, or none when the key is absent. -/
def keyStep (rt : Json) (k : String) : Except Unit (Option Json) :=
  eBind (pyContains rt k) fun has =>
    if has then eBind (pyIndex rt k) fun v => .ok (some v)
    else .ok none

/-- The pattern "if k1 in runtime_data: ... elif k2 in runtime_data: ..."
from _fetch_data. -/
def keyStep2 (rt : Json) (k1 k2 : String) : Except Unit (Option Json) :=
  eBind (keyStep rt k1) fun r =>
    match r with
    | some v => .ok (some v)
    | none => keyStep rt k2

/-- Line 251: "current_time < 0 if current_time is not None else False". -/
def isOvertimeVal : Json → Except Unit Bool
  | .null => .ok false
  | v => pyLtZero v

/-- Line 252: "abs(current_time) // 1000 if current_time and
current_time < 0 else 0". -/
def overtimeSecondsVal (v : Json) : Except Unit Nat :=
  if v.truthy then
    eBind (pyLtZero v) fun neg =>
      if neg then pyAbsFloorDiv1000 v else .ok 0
  else .ok 0

/-- The body guarded by "if timer in runtime_data and
runtime_data[timer]" of the overtime block: with no (or a falsy) timer
nothing is stored. -/
def overtimePairCore : Option Json → Except Unit (Option (Bool × Nat))
  | none => .ok none
  | some t =>
    if t.truthy then
      eBind (pyDictGetD t "current" (Json.int 0)) fun currentTime =>
      eBind (isOvertimeVal currentTime) fun isOv =>
      eBind (overtimeSecondsVal currentTime) fun ovs =>
      .ok (some (isOv, ovs))
    else .ok none

/-- Lines 247-252: the overtime block. Runs only when the "timer" key is
present with a truthy value; then computes is_overtime and
overtime_seconds from timer.get("current", 0). -/
def overtimePair (rt : Json) : Except Unit (Option (Bool × Nat)) :=
  eBind (keyStep rt "timer") overtimePairCore

/-- Lines 254-258: playback from runtime_data["playback"], else from
runtime_data["timer"]["playback"]. -/
def playbackVal (rt : Json) : Except Unit (Option Json) :=
  eBind (keyStep rt "playback") fun p =>
    match p with
    | some v => .ok (some v)
    | none =>
      eBind (keyStep rt "timer") fun t =>
        match t with
        | none => .ok none
        | some tv => keyStep tv "playback"

/-- Lines 224-258: field extraction from the unwrapped primary payload
runtime_data, in source order. -/
def extractRuntime (rt : Json) : Except Unit Data :=
  eBind (keyStep rt "timer") fun timerOpt =>
  eBind (keyStep2 rt "eventNow" "currentEvent") fun ceOpt =>
  eBind (keyStep2 rt "eventNext" "nextEvent") fun neOpt =>
  eBind (keyStep rt "publicEventNext") fun pubOpt =>
  eBind (overtimePair rt) fun ovOpt =>
  eBind (playbackVal rt) fun pbOpt =>
  .ok { runtime := some rt, timer := timerOpt, current_event := ceOpt,
        next_event := neOpt, public_next_event := pubOpt,
        is_overtime := ovOpt.map Prod.fst,
        overtime_seconds := ovOpt.map Prod.snd,
        playback := pbOpt }

/-- Lines 214-260: handling of the primary /poll response. A status
outside 200/202 only logs a warning and extracts nothing; with an accepted
status the body is parsed and, when a "payload" key is present, the fields
are extracted from it; without a "payload" key nothing is extracted. -/
def processPoll (resp : Response) : Except Unit Data :=
  if resp.status = 200 ∨ resp.status = 202 then
    eBind resp.body fun pollData =>
    eBind (pyContains pollData "payload") fun has =>
      if has then eBind (pyIndex pollData "payload") extractRuntime
      else .ok {}
  else .ok {}

/-- Python value == "s" where the value is the result of dict.get (None
when the key was absent): true exactly for the string s. -/
def pyEqStr (v : Option Json) (s : String) : Bool :=
  match v with
  | some (.str t) => t = s
  | _ => false

/-- Lines 283-292: the loop over the rundown entries. Only entries whose
"type" is "event" are examined; once the current id has been seen, the
first such entry with a falsy "skip" is returned (the loop breaks there);
an entry whose "id" equals current_id marks the current position. -/
def scanRundown (cid : Json) : List Json → Bool → Except Unit (Option Json)
  | [], _ => .ok none
  | e :: rest, foundCurrent =>
    eBind (pyDictGet e "type") fun tyOpt =>
      if pyEqStr tyOpt "event" then
        eBind (pyDictGetD e "skip" (Json.bool false)) fun skipVal =>
          if foundCurrent && !skipVal.truthy then .ok (some e)
          else
            eBind (pyDictGet e "id") fun idOpt =>
              scanRundown cid rest (foundCurrent || pyEq (idOpt.getD Json.null) cid)
      else scanRundown cid rest foundCurrent

/-- Lines 278-279: the elif branch reading
data.get("runtime", {}).get("selectedEventId"); the id is used only when
truthy. -/
def selectedId (d : Data) : Except Unit (Option Json) :=
  match d.runtime with
  | none => .ok none
  | some rt =>
    eBind (pyDictGet rt "selectedEventId") fun v =>
      match v with
      | some idv => .ok (if idv.truthy then some idv else none)
      | none => .ok none

/-- Lines 273-279: determination of current_id from the data assembled so
far: the current event's "id" when a truthy current_event is present, else
the truthy selectedEventId of the runtime payload. -/
def currentIdOf (d : Data) : Except Unit (Option Json) :=
  match d.current_event with
  | some ce => if ce.truthy then pyDictGet ce "id" else selectedId d
  | none => selectedId d

/-- Lines 281-292: the value the loop would store into data["next_event"]
(if any); every exception inside the inner try is swallowed (none). -/
def nextFromScan (d : Data) (events : List Json) : Option Json :=
  match currentIdOf d with
  | .error _ => none
  | .ok none => none
  | .ok (some cid) =>
    if cid.truthy then
      match scanRundown cid events false with
      | .error _ => none
      | .ok r => r
    else none

/-- Lines 263-295: the effect of the best-effort rundown block on the data
dict, as the pair (value stored at "rundown" if any, value stored at
"next_event" if any). A failed request, unaccepted status, parse error, or
missing "payload" key leaves everything unset; once the payload is stored
a later exception still keeps it (Python mutates the dict in place). -/
def rundownUpdates (d : Data) (rr : Except Unit Response) : Option Json × Option Json :=
  match rr with
  | .error _ => (none, none)
  | .ok resp =>
    if resp.status = 200 ∨ resp.status = 202 then
      match resp.body with
      | .error _ => (none, none)
      | .ok rundownData =>
        match pyContains rundownData "payload" with
        | .error _ => (none, none)
        | .ok false => (none, none)
        | .ok true =>
          match pyIndex rundownData "payload" with
          | .error _ => (none, none)
          | .ok payload =>
            match payload with
            | .arr events => (some payload, nextFromScan d events)
            | _ => (some payload, none)
    else (none, none)

/-- data["rundown"] = v overwrites; the first component is the new value
when assigned. -/
def overrideField : Option Json → Option Json → Option Json
  | some v, _ => some v
  | none, old => old

/-- data["next_event"] is assigned only when the key is absent (line 288). -/
def keepField : Option Json → Option Json → Option Json
  | some v, _ => some v
  | none, cand => cand

/-- Application of the rundown block's updates to the data dict. -/
def rundownStep (d : Data) (rr : Except Unit Response) : Data :=
  { d with rundown := overrideField (rundownUpdates d rr).1 d.rundown,
           next_event := keepField d.next_event (rundownUpdates d rr).2 }

/-- _fetch_data as a whole: the poll request's outcome (error = the GET or
the body parse raised) followed by the best-effort rundown request. The
Bool records whether the rundown GET was issued; in the source it is
issued unconditionally once the poll block finished without raising. -/
def fetchData (pollRes : Except Unit Response) (rundownRes : Except Unit Response) :
    Except Unit (Data × Bool) :=
  match pollRes with
  | .error e => .error e
  | .ok poll =>
    match processPoll poll with
    | .error e => .error e
    | .ok d => .ok (rundownStep d rundownRes, true)

/-- Projection: the next_event entry of a completed fetch. -/
def fetchNextEvent (pollRes rundownRes : Except Unit Response) : Option Json :=
  match fetchData pollRes rundownRes with
  | .ok (d, _) => d.next_event
  | .error _ => none

/-- Projection: the current_event entry of a completed fetch. -/
def fetchCurrentEvent (pollRes rundownRes : Except Unit Response) : Option Json :=
  match fetchData pollRes rundownRes with
  | .ok (d, _) => d.current_event
  | .error _ => none

/-- A control-endpoint response as api_request sees it: status code, the
aiohttp content_length attribute (None when unknown), and the outcome of
response.json(). -/
structure ApiResponse where
  status : Nat
  content_length : Option Nat
  body : Except Unit Json

/-- How an api_request call fails: a raised
aiohttp.ClientError("Status {n}") for an unaccepted status, or a
propagated transport/parse/attribute error. -/
inductive ApiError where
  | commandError (status : Nat)
  | transportError

/-- Lines 303-336: OntimeDataUpdateCoordinator.api_request. A status
outside 200/202 raises ClientError carrying the status; on success, a
positive content_length leads to parsing the body and returning
result.get("payload", result); otherwise None is returned. The request's
own failure (input error) propagates. -/
def api_request (resp : Except Unit ApiResponse) : Except ApiError (Option Json) :=
  match resp with
  | .error _ => .error .transportError
  | .ok r =>
    if r.status = 200 ∨ r.status = 202 then
      match r.content_length with
      | some n =>
        if 0 < n then
          match r.body with
          | .error _ => .error .transportError
          | .ok result =>
            match result with
            | .obj kvs => .ok (some ((Json.lookup (.obj kvs) "payload").getD (.obj kvs)))
            | _ => .error .transportError
        else .ok none
      | none => .ok none
    else .error (.commandError r.status)

/-- Lines 104-113: handle_add_time. The service time parameter is in
milliseconds; direction defaults to "add" and only "remove"/"subtract"
select the remove endpoint. Returns the dispatched path. -/
def handle_add_time (time : Nat) (direction : Option String) : String :=
  let dir := direction.getD "add"
  let time_seconds := time / 1000
  if dir = "remove" ∨ dir = "subtract" then
    "/addtime/remove/" ++ toString time_seconds
  else
    "/addtime/add/" ++ toString time_seconds

/-- Lines 94-97: handle_load_event builds "/load/id/{event_id}" by plain
f-string interpolation. -/
def handle_load_event (event_id : String) : String :=
  "/load/id/" ++ event_id

/-- Lines 99-102: handle_start_event builds "/start/id/{event_id}". -/
def handle_start_event (event_id : String) : String :=
  "/start/id/" ++ event_id

/-- Lines 120-123: handle_load_event_cue builds "/load/cue/{cue}". -/
def handle_load_event_cue (cue : String) : String :=
  "/load/cue/" ++ cue

/-- Hexadecimal digit (uppercase). -/
def hexDigit (n : Nat) : Char :=
  if n < 10 then Char.ofNat (48 + n) else Char.ofNat (55 + n)

/-- RFC 3986 unreserved characters. -/
def isUnreserved (c : Char) : Bool :=
  c.isAlphanum || c = '-' || c = '.' || c = '_' || c = '~'

/-- Modelled from the spec: "URL-encode path segments containing
user-supplied strings such as cue or event id" — percent-encoding of every
character outside the unreserved set (ASCII payloads). The source applies
no such encoding; this definition exists to compare the claim against the
code. -/
def specUrlEncode (s : String) : String :=
  String.join (s.toList.map fun c =>
    if isUnreserved c then String.singleton c
    else "%" ++ String.singleton (hexDigit (c.toNat / 16))
             ++ String.singleton (hexDigit (c.toNat % 16)))

/-- sensor.py line 220: truthiness of
"self.coordinator.data and self.coordinator.data.get(\"is_overtime\")" —
no data, or a missing/falsy is_overtime entry, counts as not overtime. -/
def overtimeObserved : Option Data → Bool
  | none => false
  | some d => d.is_overtime.getD false

/-- sensor.py lines 214-240: one _handle_coordinator_update call of
OntimeOvertimeSensor, as (event fired this tick, new _was_overtime). -/
def overtimeUpdate (was : Bool) (d : Option Data) : Bool × Bool :=
  if overtimeObserved d then
    if !was then (true, true) else (false, true)
  else (false, false)

/-- The fired-event trace over a sequence of coordinator updates, starting
from a given _was_overtime flag (False at construction). -/
def overtimeFires (was : Bool) : List (Option Data) → List Bool
  | [] => []
  | d :: rest =>
    let r := overtimeUpdate was d
    r.1 :: overtimeFires r.2 rest

/-- Modelled from the claim's wording for C10: the rising-edge detector —
an element is true exactly when the observed value is true and its
predecessor (or the initial flag) was false. -/
def risingEdges (prev : Bool) : List Bool → List Bool
  | [] => []
  | b :: rest => (b && !prev) :: risingEdges b rest

/-- Either the first option or, when it is absent, the second. -/
def optOr (a b : Option Json) : Option Json :=
  match a with
  | some v => some v
  | none => b

/-- A rundown entry of discriminator "event" with falsy "skip" —
a playable entry in the claims' wording. -/
def playableEntry (e : Json) : Bool :=
  pyEqStr (Json.lookup e "type") "event" && !((Json.lookup e "skip").getD (Json.bool false)).truthy

/-- Amended wording of C5: the id match only considers entries of type
"event". -/
def currentMatch (cid : Json) (e : Json) : Bool :=
  pyEqStr (Json.lookup e "type") "event" && pyEq ((Json.lookup e "id").getD Json.null) cid

/-- Amended wording of C5: locate the first type-"event" entry whose id
equals the current id, then take the first subsequent playable entry. -/
def inferNextEvent (cid : Json) : List Json → Option Json
  | [] => none
  | e :: rest =>
    if currentMatch cid e then rest.find? playableEntry
    else inferNextEvent cid rest

/-- The original claim's wording for C5: locate "the entry whose id equals
the current id" — with no type restriction on the located entry — then
take the first subsequent playable entry. -/
def claimNextEvent (cid : Json) : List Json → Option Json
  | [] => none
  | e :: rest =>
    if pyEq ((Json.lookup e "id").getD Json.null) cid then rest.find? playableEntry
    else claimNextEvent cid rest

/-- All rundown entries are JSON objects. -/
def allObjEntries (evs : List Json) : Bool :=
  evs.all Json.isObj

theorem lookup_some_isObj {t : Json} {k : String} {v : Json}
    (h : Json.lookup t k = some v) : ∃ kvs, t = .obj kvs := by
  cases t <;> simp [Json.lookup] at h ⊢

theorem truthy_of_lookup_some {t : Json} {k : String} {v : Json}
    (h : Json.lookup t k = some v) : t.truthy = true := by
  cases t <;> simp [Json.lookup] at h
  case obj kvs =>
    cases kvs with
    | nil => simp [lookupList] at h
    | cons p rest => simp [Json.truthy]

theorem keyStep_obj (kvs : List (String × Json)) (k : String) :
    keyStep (.obj kvs) k = .ok (Json.lookup (.obj kvs) k) := by
  unfold keyStep pyContains
  cases h : Json.lookup (.obj kvs) k <;> simp [eBind, h, pyIndex]

theorem pyIndex_ok {rt : Json} {k : String} {v : Json}
    (h : pyIndex rt k = .ok v) : Json.lookup rt k = some v := by
  cases rt <;> simp [pyIndex] at h
  case obj kvs =>
    cases hl : Json.lookup (.obj kvs) k with
    | none => rw [hl] at h; cases h
    | some w =>
      rw [hl] at h
      injection h with h
      rw [h]

theorem keyStep_ok {rt : Json} {k : String} {r : Option Json}
    (h : keyStep rt k = .ok r) : r = Json.lookup rt k := by
  unfold keyStep at h
  cases hc : pyContains rt k with
  | error e =>
    rw [hc] at h
    simp [eBind] at h
  | ok c =>
    rw [hc] at h
    simp only [eBind] at h
    cases c with
    | false =>
      simp only [Bool.false_eq_true, if_false] at h
      injection h with h
      subst h
      cases rt <;> simp [pyContains] at hc <;> simp [Json.lookup]
      case obj kvs =>
        cases hl : lookupList kvs k with
        | none => rfl
        | some v => simp [Json.lookup, hl] at hc
    | true =>
      rw [if_pos rfl] at h
      cases hi : pyIndex rt k with
      | error e =>
        rw [hi] at h
        simp [eBind] at h
      | ok v =>
        rw [hi] at h
        simp only [eBind] at h
        injection h with h
        subst h
        exact (pyIndex_ok hi).symm

theorem keyStep2_ok {rt : Json} {k1 k2 : String} {r : Option Json}
    (h : keyStep2 rt k1 k2 = .ok r) :
    r = optOr (Json.lookup rt k1) (Json.lookup rt k2) := by
  unfold keyStep2 at h
  rw [eBind_ok] at h
  obtain ⟨a, ha, hf⟩ := h
  have h1 := keyStep_ok ha
  cases a with
  | some v =>
    cases hf
    simp [optOr, ← h1]
  | none =>
    have h2 := keyStep_ok hf
    simp [optOr, ← h1, h2]

theorem pyDictGetD_ok {t : Json} {k : String} {df c : Json}
    (h : pyDictGetD t k df = .ok c) :
    c = (Json.lookup t k).getD df ∧ ∃ kvs, t = .obj kvs := by
  cases t <;> simp [pyDictGetD, pyDictGet] at h
  case obj kvs => simp [← h]

theorem extractRuntime_ok {rt : Json} {d : Data} (h : extractRuntime rt = .ok d) :
    ∃ timerOpt ceOpt neOpt pubOpt ovOpt pbOpt,
      keyStep rt "timer" = .ok timerOpt ∧
      keyStep2 rt "eventNow" "currentEvent" = .ok ceOpt ∧
      keyStep2 rt "eventNext" "nextEvent" = .ok neOpt ∧
      keyStep rt "publicEventNext" = .ok pubOpt ∧
      overtimePair rt = .ok ovOpt ∧
      playbackVal rt = .ok pbOpt ∧
      d = { runtime := some rt, timer := timerOpt, current_event := ceOpt,
            next_event := neOpt, public_next_event := pubOpt,
            is_overtime := ovOpt.map Prod.fst,
            overtime_seconds := ovOpt.map Prod.snd,
            playback := pbOpt } := by
  unfold extractRuntime at h
  simp only [eBind_ok] at h
  obtain ⟨t1, h1, t2, h2, t3, h3, t4, h4, t5, h5, t6, h6, hd⟩ := h
  cases hd
  exact ⟨t1, t2, t3, t4, t5, t6, h1, h2, h3, h4, h5, h6, rfl⟩

theorem isOvertimeVal_true {c : Json} (h : isOvertimeVal c = .ok true) :
    ∃ n : Int, c = .int n ∧ n < 0 := by
  cases c <;> simp [isOvertimeVal, pyLtZero] at h
  case int n => exact ⟨n, rfl, h⟩

theorem isOvertimeVal_int (n : Int) :
    isOvertimeVal (.int n) = .ok (decide (n < 0)) := rfl

theorem overtimeSecondsVal_neg {n : Int} (h : n < 0) :
    overtimeSecondsVal (.int n) = .ok (n.natAbs / 1000) := by
  have hn : (n ≠ 0) = True := by simp; omega
  simp [overtimeSecondsVal, Json.truthy, hn, pyLtZero, h, pyAbsFloorDiv1000, eBind]

theorem overtimeSecondsVal_zero {c : Json} (h : isOvertimeVal c = .ok false) :
    overtimeSecondsVal c = .ok 0 := by
  cases c with
  | null => rfl
  | bool b => cases b <;> simp [overtimeSecondsVal, Json.truthy, pyLtZero, eBind]
  | int n =>
    simp [isOvertimeVal, pyLtZero] at h
    simp [overtimeSecondsVal, Json.truthy, pyLtZero, eBind]
    intro hn
    simp [h]
  | str s => simp [isOvertimeVal, pyLtZero] at h
  | arr xs => simp [isOvertimeVal, pyLtZero] at h
  | obj kvs => simp [isOvertimeVal, pyLtZero] at h

theorem overtimePair_some {rt : Json} {b : Bool} {s : Nat}
    (h : overtimePair rt = .ok (some (b, s))) :
    ∃ t cur, keyStep rt "timer" = .ok (some t) ∧ t.truthy = true ∧
      pyDictGetD t "current" (Json.int 0) = .ok cur ∧
      isOvertimeVal cur = .ok b ∧ overtimeSecondsVal cur = .ok s := by
  unfold overtimePair at h
  rw [eBind_ok] at h
  obtain ⟨tOpt, h1, h2⟩ := h
  cases tOpt with
  | none => simp [overtimePairCore] at h2
  | some t =>
    cases htr : t.truthy with
    | false => simp [overtimePairCore, htr] at h2
    | true =>
      simp only [overtimePairCore, htr, if_pos] at h2
      simp only [eBind_ok] at h2
      obtain ⟨cur, hc, io, hio, sv, hsv, heq⟩ := h2
      injection heq with heq
      injection heq with heq
      have hb : io = b := congrArg Prod.fst heq
      have hs : sv = s := congrArg Prod.snd heq
      exact ⟨t, cur, h1, htr, hc, hb ▸ hio, hs ▸ hsv⟩

theorem overtimePair_none {rt : Json} (h : overtimePair rt = .ok none) :
    keyStep rt "timer" = .ok none ∨
      ∃ t, keyStep rt "timer" = .ok (some t) ∧ t.truthy = false := by
  unfold overtimePair at h
  rw [eBind_ok] at h
  obtain ⟨tOpt, h1, h2⟩ := h
  cases tOpt with
  | none => exact Or.inl h1
  | some t =>
    cases htr : t.truthy with
    | false => exact Or.inr ⟨t, h1, htr⟩
    | true =>
      simp only [overtimePairCore, htr, if_pos] at h2
      simp only [eBind_ok] at h2
      obtain ⟨cur, _, io, _, sv, _, heq⟩ := h2
      cases heq

theorem rundownStep_runtime (d : Data) (rr : Except Unit Response) :
    (rundownStep d rr).runtime = d.runtime := rfl

theorem rundownStep_timer (d : Data) (rr : Except Unit Response) :
    (rundownStep d rr).timer = d.timer := rfl

theorem rundownStep_current_event (d : Data) (rr : Except Unit Response) :
    (rundownStep d rr).current_event = d.current_event := rfl

theorem rundownStep_is_overtime (d : Data) (rr : Except Unit Response) :
    (rundownStep d rr).is_overtime = d.is_overtime := rfl

theorem rundownStep_overtime_seconds (d : Data) (rr : Except Unit Response) :
    (rundownStep d rr).overtime_seconds = d.overtime_seconds := rfl

theorem keepField_none (a : Option Json) : keepField a none = a := by
  cases a <;> rfl

theorem rundownStep_id {d : Data} {rr : Except Unit Response}
    (h : rundownUpdates d rr = (none, none)) : rundownStep d rr = d := by
  simp only [rundownStep, h, overrideField, keepField_none]

theorem fetchData_ok {pr rr : Except Unit Response} {d : Data} {b : Bool}
    (h : fetchData pr rr = .ok (d, b)) :
    ∃ poll dp, pr = .ok poll ∧ processPoll poll = .ok dp ∧
      d = rundownStep dp rr ∧ b = true := by
  cases pr with
  | error e => simp [fetchData] at h
  | ok poll =>
    cases hp : processPoll poll with
    | error e => simp [fetchData, hp] at h
    | ok dp =>
      simp [fetchData, hp] at h
      exact ⟨poll, dp, rfl, hp, h.1.symm, h.2⟩

theorem processPoll_ok {poll : Response} {dp : Data}
    (h : processPoll poll = .ok dp) :
    dp = {} ∨ ∃ rt, (∃ body, poll.body = .ok body ∧
      Json.lookup body "payload" = some rt) ∧ extractRuntime rt = .ok dp := by
  unfold processPoll at h
  by_cases hs : poll.status = 200 ∨ poll.status = 202
  · rw [if_pos hs] at h
    cases hb : poll.body with
    | error e => rw [hb] at h; simp [eBind] at h
    | ok pollData =>
      rw [hb] at h
      simp only [eBind] at h
      cases hc : pyContains pollData "payload" with
      | error e => rw [hc] at h; simp [eBind] at h
      | ok has =>
        rw [hc] at h
        simp only [eBind] at h
        cases has with
        | false =>
          simp only [Bool.false_eq_true, if_false] at h
          exact Or.inl (Except.ok.inj h).symm
        | true =>
          rw [if_pos rfl] at h
          cases hi : pyIndex pollData "payload" with
          | error e => rw [hi] at h; simp at h
          | ok rt =>
            rw [hi] at h
            exact Or.inr ⟨rt, ⟨pollData, rfl, pyIndex_ok hi⟩, h⟩
  · rw [if_neg hs] at h
    exact Or.inl (Except.ok.inj h).symm

/-- An accepted status and a parsed body with a "payload" key force the
poll processing into the extraction branch. -/
theorem processPoll_payload {st : Nat} {body rt : Json}
    (hst : st = 200 ∨ st = 202) (hp : Json.lookup body "payload" = some rt) :
    processPoll ⟨st, .ok body⟩ = extractRuntime rt := by
  obtain ⟨kvs, rfl⟩ := lookup_some_isObj hp
  unfold processPoll
  rw [if_pos hst]
  simp only [eBind, pyContains, hp, Option.isSome_some, if_pos, pyIndex]

/-- The ways the secondary rundown request can fail: the GET or the body
parse raised, or the response status is outside the accepted set. -/
def rundownFailed (rr : Except Unit Response) : Prop :=
  rr = .error () ∨ ∃ resp, rr = .ok resp ∧
    (¬(resp.status = 200 ∨ resp.status = 202) ∨ resp.body = .error ())

/-- C1 (counterexample): with the primary poll answering 503 and a healthy
rundown response, _fetch_data does not fail — it returns a snapshot whose
only entry is the rundown payload — and the rundown request is attempted
(the Bool component is true). The claim predicted a PollError and no
rundown request. -/
theorem claim_C1_counterexample :
    fetchData (.ok ⟨503, .ok (.obj [("payload", .obj [("timer", .obj [("current", .int 1000)])])])⟩)
        (.ok ⟨200, .ok (.obj [("payload", .arr [])])⟩) =
      .ok ({ rundown := some (.arr []) }, true) ∧
    fetchData (.ok ⟨503, .ok (.obj [("payload", .obj [("timer", .obj [("current", .int 1000)])])])⟩)
        (.ok ⟨200, .ok (.obj [("payload", .arr [])])⟩) ≠ .error () := by
  constructor
  · rfl
  · intro h
    exact Except.noConfusion ((rfl : fetchData (.ok ⟨503, .ok (.obj [("payload", .obj [("timer", .obj [("current", .int 1000)])])])⟩) (.ok ⟨200, .ok (.obj [("payload", .arr [])])⟩) = .ok ({ rundown := some (.arr []) }, true)).symm.trans h)

/-- C1 (amended): if the primary poll returns a status outside {200, 202},
fetch does not fail for that tick: it extracts nothing from the primary
response, still attempts the rundown request, and returns the snapshot
built from the rundown block alone. -/
theorem claim_C1_amended (st : Nat) (body : Except Unit Json)
    (rr : Except Unit Response) (h : ¬(st = 200 ∨ st = 202)) :
    fetchData (.ok ⟨st, body⟩) rr = .ok (rundownStep {} rr, true) := by
  simp [fetchData, processPoll, h]

/-- Witness for C1 (amended) at status 503. -/
theorem claim_C1_amended_witness :
    fetchData (.ok ⟨503, .ok (Json.obj [])⟩) (.error ()) =
      .ok (rundownStep {} (.error ()), true) :=
  claim_C1_amended 503 (.ok (Json.obj [])) (.error ()) (by decide)

/-- C4: add_time converts milliseconds to seconds by floor division;
direction "remove" or "subtract" selects /addtime/remove, anything else
(including an absent direction) selects /addtime/add; 2500 ms yields path
segment 2. -/
theorem claim_C4 (t : Nat) (dir : Option String) :
    (dir = some "remove" ∨ dir = some "subtract" →
      handle_add_time t dir = "/addtime/remove/" ++ toString (t / 1000))
    ∧ (dir ≠ some "remove" → dir ≠ some "subtract" →
      handle_add_time t dir = "/addtime/add/" ++ toString (t / 1000))
    ∧ handle_add_time 2500 none = "/addtime/add/2" := by
  refine ⟨?_, ?_, by rfl⟩
  · rintro (rfl | rfl) <;> simp [handle_add_time]
  · intro h1 h2
    have hd : ¬(dir.getD "add" = "remove" ∨ dir.getD "add" = "subtract") := by
      rcases dir with _ | s
      · simp
      · simp at h1 h2 ⊢
        exact ⟨h1, h2⟩
    simp [handle_add_time, hd]

/-- Witness for C4 at time 2500 ms and direction "subtract". -/
theorem claim_C4_witness :
    handle_add_time 2500 (some "subtract") = "/addtime/remove/" ++ toString (2500 / 1000) :=
  (claim_C4 2500 (some "subtract")).1 (Or.inr rfl)

/-- C6: when the primary poll succeeded, any failure of the secondary
rundown request (network/parse error or an unaccepted status) is swallowed
and fetch returns exactly the snapshot built from the primary response. -/
theorem claim_C6 (poll : Response) (d : Data) (rr : Except Unit Response)
    (h1 : processPoll poll = .ok d) (h2 : rundownFailed rr) :
    fetchData (.ok poll) rr = .ok (d, true) := by
  have hid : rundownStep d rr = d := by
    apply rundownStep_id
    rcases h2 with rfl | ⟨resp, rfl, hbad | hberr⟩
    · rfl
    · simp [rundownUpdates, hbad]
    · by_cases hs : resp.status = 200 ∨ resp.status = 202 <;>
        simp [rundownUpdates, hs, hberr]
  simp [fetchData, h1, hid]

/-- Witness for C6: a healthy primary poll with a failed rundown GET. -/
theorem claim_C6_witness :
    fetchData (.ok ⟨200, .ok (.obj [("payload", .obj [("timer", .obj [("current", .int 5000)])])])⟩)
        (.error ()) =
      .ok ({ runtime := some (.obj [("timer", .obj [("current", .int 5000)])]),
             timer := some (.obj [("current", .int 5000)]),
             is_overtime := some false, overtime_seconds := some 0 }, true) :=
  claim_C6 ⟨200, .ok (.obj [("payload", .obj [("timer", .obj [("current", .int 5000)])])])⟩
    { runtime := some (.obj [("timer", .obj [("current", .int 5000)])]),
      timer := some (.obj [("current", .int 5000)]),
      is_overtime := some false, overtime_seconds := some 0 }
    (.error ()) rfl (Or.inl rfl)

/-- C9 (counterexample): the cue "a b" is substituted verbatim, producing
"/load/cue/a b", which differs from the URL-encoded "/load/cue/a%20b" the
claim requires. -/
theorem claim_C9_counterexample :
    handle_load_event_cue "a b" = "/load/cue/a b" ∧
    "/load/cue/" ++ specUrlEncode "a b" = "/load/cue/a%20b" ∧
    ("/load/cue/a b" : String) ≠ "/load/cue/a%20b" := by
  refine ⟨rfl, rfl, by decide⟩

/-- C9 (amended): user-supplied path parameters (cue, event id) are
substituted verbatim into the request path; no URL-encoding is applied
(witnessed by the cue "a b"). -/
theorem claim_C9_amended (cue event_id : String) :
    handle_load_event_cue cue = "/load/cue/" ++ cue ∧
    handle_load_event event_id = "/load/id/" ++ event_id ∧
    handle_start_event event_id = "/start/id/" ++ event_id ∧
    handle_load_event_cue "a b" ≠ "/load/cue/" ++ specUrlEncode "a b" := by
  refine ⟨rfl, rfl, rfl, by decide⟩

/-- Witness for C9 (amended) at a concrete cue. -/
theorem claim_C9_amended_witness :
    handle_load_event_cue "q" = "/load/cue/" ++ "q" :=
  (claim_C9_amended "q" "e").1

/-- C2: for every snapshot a completed fetch produces, is_overtime is
stored true exactly when the timer document has a "current" member holding
a strictly negative integer (a missing or null current, or the value 0, is
not overtime); when it is overtime, overtime_seconds is
floor(abs(current) / 1000), and otherwise the stored overtime_seconds (or
its default when the entry is absent) is 0. -/
theorem claim_C2 (pr rr : Except Unit Response) (d : Data) (b : Bool)
    (h : fetchData pr rr = .ok (d, b)) :
    ((d.is_overtime = some true) ↔
      ∃ (t : Json) (n : Int), d.timer = some t ∧
        Json.lookup t "current" = some (.int n) ∧ n < 0)
    ∧ (∀ (t : Json) (n : Int), d.timer = some t →
        Json.lookup t "current" = some (.int n) → n < 0 →
        d.overtime_seconds = some (n.natAbs / 1000))
    ∧ (d.is_overtime ≠ some true → d.overtime_seconds.getD 0 = 0) := by
  obtain ⟨poll, dp, hpr, hpp, hd, hb⟩ := fetchData_ok h
  subst hd
  rw [rundownStep_is_overtime, rundownStep_timer, rundownStep_overtime_seconds]
  rcases processPoll_ok hpp with rfl | ⟨rt, _, hex⟩
  · simp
  · obtain ⟨timerOpt, ceOpt, neOpt, pubOpt, ovOpt, pbOpt, h1, _, _, _, h5, _, hrec⟩ :=
      extractRuntime_ok hex
    subst hrec
    cases ovOpt with
    | none =>
      rcases overtimePair_none h5 with hk | ⟨t, hk, htr⟩
      · have hto : timerOpt = (none : Option Json) := Except.ok.inj (h1.symm.trans hk)
        subst hto
        simp
      · have hto : timerOpt = some t := Except.ok.inj (h1.symm.trans hk)
        subst hto
        refine ⟨?_, ?_, ?_⟩
        · constructor
          · intro hfalse
            simp at hfalse
          · rintro ⟨t', n, ht', hl, hn⟩
            have ht'' : t = t' := by simpa using ht'
            subst ht''
            have hT := truthy_of_lookup_some hl
            rw [htr] at hT
            cases hT
        · intro t' n ht' hl hn
          have ht'' : t = t' := by simpa using ht'
          subst ht''
          have hT := truthy_of_lookup_some hl
          rw [htr] at hT
          cases hT
        · intro _
          simp
    | some pair =>
      obtain ⟨io, sv⟩ := pair
      obtain ⟨t, cur, hk, htr, hc, hio, hsv⟩ := overtimePair_some h5
      have hto : timerOpt = some t := Except.ok.inj (h1.symm.trans hk)
      subst hto
      obtain ⟨hcur, tkvs, _⟩ := And.intro (pyDictGetD_ok hc).1 (pyDictGetD_ok hc).2
      refine ⟨?_, ?_, ?_⟩
      · constructor
        · intro hptrue
          have hiot : io = true := by simpa using hptrue
          subst hiot
          obtain ⟨n, hcn, hn⟩ := isOvertimeVal_true hio
          cases hl : Json.lookup t "current" with
          | none =>
            rw [hl] at hcur
            simp only [Option.getD_none] at hcur
            rw [hcur] at hcn
            injection hcn with hcn
            omega
          | some v =>
            rw [hl] at hcur
            simp only [Option.getD_some] at hcur
            refine ⟨t, n, by simp, ?_, hn⟩
            rw [hl, ← hcur, hcn]
        · rintro ⟨t', n, ht', hl, hn⟩
          have ht'' : t = t' := by simpa using ht'
          subst ht''
          rw [hl] at hcur
          simp only [Option.getD_some] at hcur
          rw [hcur, isOvertimeVal_int] at hio
          have hio' := Except.ok.inj hio
          simp [hn] at hio'
          simp [← hio']
      · intro t' n ht' hl hn
        have ht'' : t = t' := by simpa using ht'
        subst ht''
        rw [hl] at hcur
        simp only [Option.getD_some] at hcur
        rw [hcur, overtimeSecondsVal_neg hn] at hsv
        have hsv' := Except.ok.inj hsv
        simp [← hsv']
      · intro hne
        have hiof : io = false := by
          cases io with
          | false => rfl
          | true =>
            exfalso
            apply hne
            simp
        subst hiof
        have h0 := overtimeSecondsVal_zero hio
        have hsv' := Except.ok.inj (h0.symm.trans hsv)
        simp [← hsv']

/-- Witness for C2 at a poll payload whose timer.current is -2500 ms. -/
theorem claim_C2_witness :
    ({ runtime := some (Json.obj [("timer", Json.obj [("current", Json.int (-2500))])]),
       timer := some (Json.obj [("current", Json.int (-2500))]),
       is_overtime := some true, overtime_seconds := some 2 } : Data).is_overtime =
      some true :=
  (claim_C2
    (.ok ⟨200, .ok (.obj [("payload", .obj [("timer", .obj [("current", .int (-2500))])])])⟩)
    (.error ())
    { runtime := some (.obj [("timer", .obj [("current", .int (-2500))])]),
      timer := some (.obj [("current", .int (-2500))]),
      is_overtime := some true, overtime_seconds := some 2 }
    true (by rfl)).1.mpr
    ⟨.obj [("current", .int (-2500))], -2500, rfl, rfl, by decide⟩

/-- C3 (counterexample): on the poll path a 200 body that carries a timer
but no "payload" key is ignored entirely — the snapshot keeps no runtime
and no timer — whereas the claim says the whole body would be treated as
the payload (which would have set runtime to the body). -/
theorem claim_C3_counterexample :
    fetchData (.ok ⟨200, .ok (.obj [("timer", .obj [("current", .int 500)])])⟩)
        (.error ()) = .ok ({}, true) ∧
    ({} : Data).runtime = none ∧
    ({} : Data).runtime ≠ some (.obj [("timer", .obj [("current", .int 500)])]) := by
  refine ⟨rfl, rfl, ?_⟩
  intro h
  exact Option.noConfusion h

/-- C3 (amended): with a "payload" key present, both paths unwrap the
envelope (the poll path stores the payload as the runtime document, the
command path returns it); without a "payload" key, only the command path
falls back to the whole body, while the poll path extracts nothing. -/
theorem claim_C3_amended :
    (∀ (st : Nat) (body rt : Json) (rr : Except Unit Response) (d : Data) (b : Bool),
      (st = 200 ∨ st = 202) → Json.lookup body "payload" = some rt →
      fetchData (.ok ⟨st, .ok body⟩) rr = .ok (d, b) → d.runtime = some rt)
    ∧ (∀ (kvs : List (String × Json)) (X : Json),
        Json.lookup (.obj kvs) "payload" = some X →
        api_request (.ok ⟨200, some 1, .ok (.obj kvs)⟩) = .ok (some X))
    ∧ (∀ kvs : List (String × Json),
        Json.lookup (.obj kvs) "payload" = none →
        api_request (.ok ⟨200, some 1, .ok (.obj kvs)⟩) = .ok (some (.obj kvs)))
    ∧ (∀ (st : Nat) (kvs : List (String × Json)) (rr : Except Unit Response),
        (st = 200 ∨ st = 202) → Json.lookup (.obj kvs) "payload" = none →
        fetchData (.ok ⟨st, .ok (.obj kvs)⟩) rr = .ok (rundownStep {} rr, true)) := by
  refine ⟨?_, ?_, ?_, ?_⟩
  · intro st body rt rr d b hst hp h
    obtain ⟨poll, dp, hpr, hpp, hd, _⟩ := fetchData_ok h
    injection hpr with hpr
    subst hpr
    subst hd
    rw [rundownStep_runtime]
    rw [processPoll_payload hst hp] at hpp
    obtain ⟨t1, t2, t3, t4, t5, t6, _, _, _, _, _, _, hrec⟩ := extractRuntime_ok hpp
    rw [hrec]
  · intro kvs X hp
    simp [api_request, hp]
  · intro kvs hp
    simp [api_request, hp]
  · intro st kvs rr hst hp
    simp [fetchData, processPoll, hst, eBind, pyContains, hp]

/-- Witness for C3 (amended), first conjunct at a concrete enveloped poll
body. -/
theorem claim_C3_amended_witness :
    ({ runtime := some (Json.obj [("x", Json.int 1)]) } : Data).runtime =
      some (Json.obj [("x", Json.int 1)]) :=
  claim_C3_amended.1 200 (.obj [("payload", .obj [("x", .int 1)])])
    (.obj [("x", .int 1)]) (.error ())
    { runtime := some (.obj [("x", .int 1)]) } true (Or.inl rfl) rfl rfl

/-- C7 (counterexample): with eventNow present but null and a non-null
currentEvent, the snapshot's current_event is null — key presence, not
non-nullness, decides — contradicting the claim that the first non-null
among eventNow, currentEvent wins. -/
theorem claim_C7_counterexample :
    fetchCurrentEvent
        (.ok ⟨200, .ok (.obj [("payload",
          .obj [("eventNow", .null), ("currentEvent", .obj [("id", .str "x")])])])⟩)
        (.error ()) = some Json.null ∧
    some Json.null ≠ some (Json.obj [("id", Json.str "x")]) := by
  refine ⟨rfl, ?_⟩
  intro h
  injection h with h
  exact Json.noConfusion h

/-- C7 (amended): the snapshot's current_event is taken from the first
present key among eventNow and currentEvent of the primary payload — a
present-but-null eventNow wins over a non-null currentEvent. -/
theorem claim_C7_amended (st : Nat) (body rt : Json) (rr : Except Unit Response)
    (d : Data) (b : Bool) (hst : st = 200 ∨ st = 202)
    (hp : Json.lookup body "payload" = some rt)
    (h : fetchData (.ok ⟨st, .ok body⟩) rr = .ok (d, b)) :
    d.current_event = optOr (Json.lookup rt "eventNow") (Json.lookup rt "currentEvent") := by
  obtain ⟨poll, dp, hpr, hpp, hd, _⟩ := fetchData_ok h
  injection hpr with hpr
  subst hpr
  subst hd
  rw [rundownStep_current_event]
  rw [processPoll_payload hst hp] at hpp
  obtain ⟨t1, t2, t3, t4, t5, t6, _, h2, _, _, _, _, hrec⟩ := extractRuntime_ok hpp
  rw [hrec]
  exact keyStep2_ok h2

/-- Witness for C7 (amended) at a payload whose eventNow is a concrete
event record. -/
theorem claim_C7_amended_witness :
    ({ runtime := some (Json.obj [("eventNow", Json.obj [("id", Json.str "z")])]),
       current_event := some (Json.obj [("id", Json.str "z")]) } : Data).current_event =
      optOr (Json.lookup (.obj [("eventNow", .obj [("id", .str "z")])]) "eventNow")
            (Json.lookup (.obj [("eventNow", .obj [("id", .str "z")])]) "currentEvent") :=
  claim_C7_amended 200 (.obj [("payload", .obj [("eventNow", .obj [("id", .str "z")])])])
    (.obj [("eventNow", .obj [("id", .str "z")])]) (.error ())
    { runtime := some (.obj [("eventNow", .obj [("id", .str "z")])]),
      current_event := some (.obj [("id", .str "z")]) } true (Or.inl rfl) rfl rfl

/-- C8: dispatched commands treat exactly the statuses 200 and 202 as
success — any other status raises a command error carrying the status —
and on success the dispatcher returns the unwrapped payload (or the whole
body when no payload key is present) when the body is non-empty, and
nothing when content_length is absent or zero. -/
theorem claim_C8 :
    (∀ r : ApiResponse, ¬(r.status = 200 ∨ r.status = 202) →
      api_request (.ok r) = .error (.commandError r.status))
    ∧ (∀ (st n : Nat) (kvs : List (String × Json)), (st = 200 ∨ st = 202) → 0 < n →
        api_request (.ok ⟨st, some n, .ok (.obj kvs)⟩) =
          .ok (some ((Json.lookup (.obj kvs) "payload").getD (.obj kvs))))
    ∧ (∀ (st : Nat) (body : Except Unit Json), (st = 200 ∨ st = 202) →
        api_request (.ok ⟨st, none, body⟩) = .ok none ∧
        api_request (.ok ⟨st, some 0, body⟩) = .ok none) := by
  refine ⟨?_, ?_, ?_⟩
  · intro r h
    simp [api_request, h]
  · intro st n kvs hst hn
    simp [api_request, hst, hn]
  · intro st body hst
    constructor <;> simp [api_request, hst]

/-- Witness for C8: status 404 raises CommandError 404. -/
theorem claim_C8_witness :
    api_request (.ok ⟨404, some 3, .ok (.obj [])⟩) = .error (.commandError 404) :=
  claim_C8.1 ⟨404, some 3, .ok (.obj [])⟩ (by decide)

/-- On rundowns whose entries are all objects, the source loop computes:
before the current id is found, look for the first type-"event" entry
matching the id; afterwards, return the first playable entry. -/
theorem scanRundown_obj (cid : Json) :
    ∀ (evs : List Json) (fc : Bool), allObjEntries evs = true →
      scanRundown cid evs fc =
        .ok (if fc then evs.find? playableEntry else inferNextEvent cid evs) := by
  intro evs
  induction evs with
  | nil =>
    intro fc _
    cases fc <;> rfl
  | cons e rest ih =>
    intro fc h
    simp only [allObjEntries, List.all_cons, Bool.and_eq_true] at h
    obtain ⟨he, hrest⟩ := h
    have hrest' : allObjEntries rest = true := hrest
    cases e <;> simp [Json.isObj] at he
    case obj kvs =>
      cases fc <;>
        cases hty : pyEqStr (Json.lookup (Json.obj kvs) "type") "event" <;>
        cases hsk : ((Json.lookup (Json.obj kvs) "skip").getD (Json.bool false)).truthy <;>
        cases him : pyEq ((Json.lookup (Json.obj kvs) "id").getD Json.null) cid <;>
        simp [scanRundown, pyDictGet, pyDictGetD, eBind, hty, hsk, him,
          ih _ hrest', inferNextEvent, currentMatch, playableEntry, List.find?]

/-- C5 (counterexample): with the rundown
[{id x, type block}, {id y, type event, skip false}] and current id "x",
the claim's scan (id match with no type restriction) selects the y event,
but the code never marks the current position — the match also requires
type "event" — so no next event is inferred. -/
theorem claim_C5_counterexample :
    claimNextEvent (.str "x")
        [.obj [("id", .str "x"), ("type", .str "block")],
         .obj [("id", .str "y"), ("type", .str "event"), ("skip", .bool false)]] =
      some (.obj [("id", .str "y"), ("type", .str "event"), ("skip", .bool false)]) ∧
    fetchNextEvent
        (.ok ⟨200, .ok (.obj [("payload", .obj [("eventNow", .obj [("id", .str "x")])])])⟩)
        (.ok ⟨200, .ok (.obj [("payload", .arr
          [.obj [("id", .str "x"), ("type", .str "block")],
           .obj [("id", .str "y"), ("type", .str "event"), ("skip", .bool false)]])])⟩) =
      none ∧
    some (Json.obj [("id", .str "y"), ("type", .str "event"), ("skip", .bool false)]) ≠
      (none : Option Json) := by
  refine ⟨rfl, rfl, by simp⟩

/-- C5 (amended): the scan locates the first entry of type "event" whose
id equals the current id — entries of other types are considered neither
for the id match nor for selection — and picks the first subsequent
type-"event" entry with falsy skip; on the claim's example rundown
[a event, b block, c event skipped, d event] with current id "a" the
inferred next event is still d. -/
theorem claim_C5_amended :
    (∀ (cid : Json) (evs : List Json), allObjEntries evs = true →
      scanRundown cid evs false = .ok (inferNextEvent cid evs))
    ∧ fetchNextEvent
        (.ok ⟨200, .ok (.obj [("payload", .obj [("eventNow", .obj [("id", .str "a")])])])⟩)
        (.ok ⟨200, .ok (.obj [("payload", .arr
          [.obj [("id", .str "a"), ("type", .str "event"), ("skip", .bool false)],
           .obj [("id", .str "b"), ("type", .str "block")],
           .obj [("id", .str "c"), ("type", .str "event"), ("skip", .bool true)],
           .obj [("id", .str "d"), ("type", .str "event"), ("skip", .bool false)]])])⟩) =
      some (.obj [("id", .str "d"), ("type", .str "event"), ("skip", .bool false)]) := by
  constructor
  · intro cid evs h
    rw [scanRundown_obj cid evs false h]
    simp
  · rfl

/-- Witness for C5 (amended) on a concrete one-event rundown. -/
theorem claim_C5_amended_witness :
    allObjEntries
        [.obj [("id", .str "a"), ("type", .str "event"), ("skip", .bool false)]] = true ∧
    scanRundown (.str "a")
        [.obj [("id", .str "a"), ("type", .str "event"), ("skip", .bool false)]] false =
      .ok (inferNextEvent (.str "a")
        [.obj [("id", .str "a"), ("type", .str "event"), ("skip", .bool false)]]) :=
  ⟨rfl, claim_C5_amended.1 (.str "a")
    [.obj [("id", .str "a"), ("type", .str "event"), ("skip", .bool false)]] rfl⟩

/-- One update step fires exactly on a rising edge and stores the observed
value as the new flag. -/
theorem overtimeUpdate_eq (was : Bool) (d : Option Data) :
    overtimeUpdate was d = (overtimeObserved d && !was, overtimeObserved d) := by
  cases h : overtimeObserved d <;> cases was <;> simp [overtimeUpdate, h]

theorem overtimeFires_eq (was : Bool) (ds : List (Option Data)) :
    overtimeFires was ds = risingEdges was (ds.map overtimeObserved) := by
  induction ds generalizing was with
  | nil => rfl
  | cons d rest ih =>
    simp [overtimeFires, risingEdges, overtimeUpdate_eq, ih]

/-- C10: the ontime_overtime_started notification is edge-triggered — over
any sequence of coordinator updates (starting from the constructor's
_was_overtime = False), the fired-event trace equals the rising-edge
trace of the observed is_overtime values: an event fires exactly when
is_overtime is observed true and the previous tick observed it false (or
there was no previous tick), so it cannot fire again until a
non-overtime tick has occurred. -/
theorem claim_C10 (ds : List (Option Data)) :
    overtimeFires false ds = risingEdges false (ds.map overtimeObserved) :=
  overtimeFires_eq false ds

end Ontime
